import Mathlib

/-!
Verification of the multi-countdown-timer application
(`src/flet_multi_countdown_timer.py`).

The `CountdownTimer` class is embedded shallowly: its mutable fields become
the fields of `Countdown.TimerState`, its methods become pure state
transformers, and the per-timer background loop `_run` becomes a step
function `runStep` on a loop state that carries the loop-local `last_tick`
variable, driven by monotonic-clock samples.  Real-valued quantities
(`remaining`, clock readings, progress fractions) are modelled as rationals.
Calls to `_sync_ui` are observable through the UI fields it recomputes and a
`syncCount` counter that records each refresh request; spawns of the
background task (`page.run_task(self._run)`) are recorded in `spawnCount`.
-/

set_option autoImplicit false

namespace Countdown

/-- Strip leading and trailing whitespace from a character list
(the whitespace-tolerance of Python's `int`). -/
def stripWs (cs : List Char) : List Char :=
  ((cs.dropWhile Char.isWhitespace).reverse.dropWhile Char.isWhitespace).reverse

/-- Read a nonempty all-digit character list as a natural number;
`none` on an empty list or any non-digit character. -/
def digitsToNat (cs : List Char) : Option Nat :=
  match cs with
  | [] => none
  | _ =>
    cs.foldl
      (fun acc c =>
        acc.bind (fun n => if c.isDigit then some (10 * n + (c.toNat - 48)) else none))
      (some 0)

/-- Models Python's `int(str)` as used in `start`: optional surrounding
whitespace, an optional sign, then one or more decimal digits; any other
input raises `ValueError`, modelled as `none`.  (Digit-group underscores,
which never occur in this program's inputs, are not modelled.) -/
def pyInt (str : String) : Option Int :=
  match stripWs str.toList with
  | '-' :: rest => (digitsToNat rest).map (fun n => -(n : Int))
  | '+' :: rest => (digitsToNat rest).map (fun n => (n : Int))
  | cs => (digitsToNat cs).map (fun n => (n : Int))

/-- Zero-pad a (non-negative) integer's decimal representation to
at least two characters: the embedding of Python's `f"{n:02d}"`. -/
def pad2 (n : Int) : String :=
  let str := toString n
  if str.length < 2 then "0" ++ str else str

/-- `CountdownTimer._format_time`: clamp a negative second count to 0, then
render minutes (`s // 60`, unbounded) and seconds (`s % 60`), each
zero-padded to two digits, separated by a colon. -/
def format_time (s : Int) : String :=
  let s := if s < 0 then 0 else s
  let m := s / 60
  let sec := s % 60
  pad2 m ++ ":" ++ pad2 sec

/-- Spec-side definition, for comparison with `format_time` (claim C7):
two-digit zero-padding described arithmetically — a leading zero exactly
for values below 10. -/
def specPad2 (k : Nat) : String :=
  if k < 10 then "0" ++ toString k else toString k

/-- Spec-side definition, for comparison with `format_time` (claim C7):
`MM:SS` with minutes `floor(s / 60)` (unbounded) and seconds `s mod 60`,
each zero-padded to two digits. -/
def specFormat (s : Nat) : String :=
  specPad2 (s / 60) ++ ":" ++ specPad2 (s % 60)

/-- Python's builtin `max` on two rationals: keeps the first argument
unless the second is strictly greater. -/
def pymax (a b : ℚ) : ℚ := if a < b then b else a

/-- Python's builtin `min` on two rationals: keeps the first argument
unless the second is strictly smaller. -/
def pymin (a b : ℚ) : ℚ := if b < a then b else a

/-- `CountdownTimer._progress_fraction`, abstracted over the two fields it
reads: `0` when the configured total is non-positive, otherwise
`(total - remaining) / total` clamped into `[0, 1]`. -/
def progress_frac (total : Int) (remaining : ℚ) : ℚ :=
  if total ≤ 0 then 0
  else pymax 0 (pymin 1 (((total : ℚ) - remaining) / (total : ℚ)))

/-- The state of one `CountdownTimer` instance: its scalar fields
(`name`, `default_seconds`, `total_seconds`, `remaining`, `running`),
the liveness of its background task handle `_task` (`taskAlive` is
"`_task is not None and not _task.done()`", `spawnCount` counts
`page.run_task` calls), the duration input field's current text
(`inputValue`), and the UI element state `_sync_ui` writes
(`timeText`, `ringValue`, `barValue`, the three buttons' disabled flags,
and `syncCount` counting refresh requests). -/
structure TimerState where
  name : String
  default_seconds : Int
  total_seconds : Int
  remaining : ℚ
  running : Bool
  taskAlive : Bool
  spawnCount : Nat
  inputValue : String
  timeText : String
  ringValue : ℚ
  barValue : ℚ
  startDisabled : Bool
  pauseDisabled : Bool
  resetDisabled : Bool
  syncCount : Nat
deriving DecidableEq

/-- `CountdownTimer._progress_fraction` on a timer state. -/
def progress_fraction (s : TimerState) : ℚ :=
  progress_frac s.total_seconds s.remaining

/-- `CountdownTimer._sync_ui`: recompute the time text from
`ceil(remaining)`, set both progress indicators to the progress fraction,
recompute the three buttons' disabled flags, and request a page update
(counted by `syncCount`; failures of `page.update` are swallowed and
change nothing). -/
def sync_ui (s : TimerState) : TimerState :=
  let frac := progress_fraction s
  { s with
    timeText := format_time ⌈s.remaining⌉
    ringValue := frac
    barValue := frac
    startDisabled := s.running
    pauseDisabled := !s.running
    resetDisabled := decide (s.remaining = (s.total_seconds : ℚ)) && !s.running
    syncCount := s.syncCount + 1 }

/-- `CountdownTimer.__init__`: not running, no task, `total_seconds` and
`remaining` both the default, the input field showing the default, and the
UI elements initialised as the constructor builds them (buttons enabled,
time text and indicators computed from the fresh state). -/
def init (name : String) (default_seconds : Int) : TimerState :=
  { name := name
    default_seconds := default_seconds
    total_seconds := default_seconds
    remaining := (default_seconds : ℚ)
    running := false
    taskAlive := false
    spawnCount := 0
    inputValue := toString default_seconds
    timeText := format_time default_seconds
    ringValue := progress_frac default_seconds (default_seconds : ℚ)
    barValue := progress_frac default_seconds (default_seconds : ℚ)
    startDisabled := false
    pauseDisabled := false
    resetDisabled := false
    syncCount := 0 }

/-- The tail of `CountdownTimer.start` after the `try` block: if not
running, set `running` to true, spawn a background task when the current
handle is dead (`_task is None or _task.done()`), and refresh the UI;
if already running, do nothing. -/
def activate (s : TimerState) : TimerState :=
  if s.running then s
  else
    let s1 := { s with running := true }
    let s2 :=
      if s1.taskAlive then s1
      else { s1 with taskAlive := true, spawnCount := s1.spawnCount + 1 }
    sync_ui s2

/-- `CountdownTimer.start`: parse the input field with `int`.  A parsed
value `≤ 0` returns from the whole method immediately.  A parsed positive
value reconfigures `total_seconds` and `remaining` (with a UI refresh) when
`remaining ≤ 0` or the value differs from `total_seconds`.  A parse failure
is swallowed.  Except after the early return, control then reaches
`activate`. -/
def start (s : TimerState) : TimerState :=
  match pyInt s.inputValue with
  | some val =>
    if val ≤ 0 then s
    else
      let s1 :=
        if s.remaining ≤ 0 ∨ val ≠ s.total_seconds then
          sync_ui { s with total_seconds := val, remaining := (val : ℚ) }
        else s
      activate s1
  | none => activate s

/-- `CountdownTimer.pause`: if running, stop running and refresh the UI;
otherwise do nothing. -/
def pause (s : TimerState) : TimerState :=
  if s.running then sync_ui { s with running := false } else s

/-- `CountdownTimer.reset`: stop running, restore `remaining` to
`total_seconds`, refresh the UI. -/
def reset (s : TimerState) : TimerState :=
  sync_ui { s with running := false, remaining := (s.total_seconds : ℚ) }

/-- What a wake of the background loop `_run` reports back to the loop:
continue to the next wake, or `break` out of the loop. -/
inductive LoopSignal where
  | cont : LoopSignal
  | brk : LoopSignal
deriving DecidableEq

/-- The state visible to one execution of `_run`: the timer plus the
loop-local `last_tick` variable (`none` is Python's `None` baseline). -/
structure LoopState where
  timer : TimerState
  lastTick : Option ℚ
deriving DecidableEq

/-- The elapsed time `_run` computes at a wake occurring at monotonic time
`now`: `now - last_tick`, where a `None` baseline is first replaced by
`now` (so the first running wake elapses 0). -/
def elapsedAt (ls : LoopState) (now : ℚ) : ℚ :=
  now - ls.lastTick.getD now

/-- One wake of the body of `_run`, at monotonic clock reading `now`.
Not running: idle, changing nothing (in particular `last_tick` is NOT
updated while paused).  Running: subtract the elapsed time from
`remaining`; if the result is `≤ 0`, clamp to exactly 0, stop running,
refresh the UI and `break` (the task then finishes, so its handle reports
done); otherwise store the decremented value, refresh the UI and continue. -/
def runStep (ls : LoopState) (now : ℚ) : LoopState × LoopSignal :=
  if ls.timer.running = false then (ls, .cont)
  else
    let rem := ls.timer.remaining - elapsedAt ls now
    if rem ≤ 0 then
      ({ timer := sync_ui { ls.timer with remaining := 0, running := false, taskAlive := false }
         lastTick := some now }, .brk)
    else
      ({ timer := sync_ui { ls.timer with remaining := rem }
         lastTick := some now }, .cont)

/-- Run the `while True` loop of `_run` over a finite list of successive
monotonic clock readings, stopping as soon as a wake breaks out. -/
def runList (ls : LoopState) : List ℚ → LoopState
  | [] => ls
  | now :: rest =>
    match runStep ls now with
    | (ls1, .brk) => ls1
    | (ls1, .cont) => runList ls1 rest

/-- The spec's data-model invariant for one timer:
`0 ≤ remainingSeconds ≤ totalSeconds`. -/
def Inv (s : TimerState) : Prop :=
  0 ≤ s.remaining ∧ s.remaining ≤ (s.total_seconds : ℚ)

instance (s : TimerState) : Decidable (Inv s) :=
  inferInstanceAs (Decidable (0 ≤ s.remaining ∧ s.remaining ≤ (s.total_seconds : ℚ)))

/-! ### Concrete states used as test vectors -/

/-- A fresh 60-second timer whose duration field holds `"0"`. -/
def zeroInputTimer : TimerState := { init "Timer 1" 60 with inputValue := "0" }

/-- A fresh 60-second timer whose duration field holds `"abc"`. -/
def abcPausedTimer : TimerState := { init "Timer 1" 60 with inputValue := "abc" }

/-- A fresh 60-second timer whose duration field holds `"-5"`. -/
def negInputTimer : TimerState := { init "Timer 1" 60 with inputValue := "-5" }

/-- A running 60-second timer, 40 seconds left, duration field `"abc"`. -/
def runningAbcTimer : TimerState :=
  { init "Timer 1" 60 with
    running := true
    taskAlive := true
    spawnCount := 1
    remaining := 40
    inputValue := "abc" }

/-- A running 60-second timer, 40 seconds left, duration field `"60"`. -/
def run60Timer : TimerState :=
  { init "Timer 1" 60 with
    running := true
    taskAlive := true
    spawnCount := 1
    remaining := 40 }

/-- A running 60-second timer, 40 seconds left, duration field `"90"`. -/
def run90Timer : TimerState := { run60Timer with inputValue := "90" }

/-- A finished 60-second timer (0 seconds left), duration field `"45"`. -/
def finished45Timer : TimerState :=
  { init "Timer 1" 60 with remaining := 0, inputValue := "45" }

/-- A running timer whose `remaining` has been driven to 0 (reachable by
pressing Start with invalid input on a finished timer), duration field
`"60"` equal to its `total_seconds`. -/
def runningAtZeroTimer : TimerState :=
  { init "Timer 1" 60 with
    running := true
    taskAlive := true
    spawnCount := 1
    remaining := 0 }

/-- A running 60-second timer, 40 seconds left, duration field `"60"`. -/
def steadyRunningTimer : TimerState :=
  { init "Timer 2" 60 with
    running := true
    taskAlive := true
    spawnCount := 1
    remaining := 40 }

/-- A timer with `total_seconds = 0` but 5 seconds remaining. -/
def zeroTotalTimer : TimerState :=
  { init "Timer 1" 60 with total_seconds := 0, remaining := 5 }

/-- A 60-second timer with 15 seconds remaining. -/
def quarterLeftTimer : TimerState := { init "Timer 1" 60 with remaining := 15 }

/-- A running loop whose remaining second will be exhausted by the next
wake: baseline tick at 0, one second remaining. -/
def doneLoop : LoopState :=
  { timer := { init "Timer 1" 60 with
      running := true
      taskAlive := true
      spawnCount := 1
      remaining := 1 }
    lastTick := some 0 }

/-- A running loop with 40 seconds remaining and baseline tick at 0. -/
def midLoop : LoopState :=
  { timer := steadyRunningTimer, lastTick := some 0 }

/-! ### Projection lemmas for the state transformers -/

@[simp] theorem sync_ui_name (s : TimerState) : (sync_ui s).name = s.name := rfl

@[simp] theorem sync_ui_default_seconds (s : TimerState) :
    (sync_ui s).default_seconds = s.default_seconds := rfl

@[simp] theorem sync_ui_total_seconds (s : TimerState) :
    (sync_ui s).total_seconds = s.total_seconds := rfl

@[simp] theorem sync_ui_remaining (s : TimerState) : (sync_ui s).remaining = s.remaining := rfl

@[simp] theorem sync_ui_running (s : TimerState) : (sync_ui s).running = s.running := rfl

@[simp] theorem sync_ui_taskAlive (s : TimerState) : (sync_ui s).taskAlive = s.taskAlive := rfl

@[simp] theorem sync_ui_spawnCount (s : TimerState) : (sync_ui s).spawnCount = s.spawnCount := rfl

@[simp] theorem sync_ui_inputValue (s : TimerState) : (sync_ui s).inputValue = s.inputValue := rfl

@[simp] theorem sync_ui_syncCount (s : TimerState) :
    (sync_ui s).syncCount = s.syncCount + 1 := rfl

theorem pymax_eq_max (a b : ℚ) : pymax a b = max a b := by
  unfold pymax
  rcases lt_or_le a b with h | h
  · rw [if_pos h, max_eq_right h.le]
  · rw [if_neg (not_lt.2 h), max_eq_left h]

theorem pymin_eq_min (a b : ℚ) : pymin a b = min a b := by
  unfold pymin
  rcases lt_or_le b a with h | h
  · rw [if_pos h, min_eq_right h.le]
  · rw [if_neg (not_lt.2 h), min_eq_left h]

theorem activate_of_running (s : TimerState) (h : s.running = true) : activate s = s := by
  unfold activate
  rw [if_pos h]

theorem activate_of_not_running (s : TimerState) (h : s.running = false) :
    activate s =
      sync_ui (if s.taskAlive then { s with running := true }
        else { s with running := true, taskAlive := true, spawnCount := s.spawnCount + 1 }) := by
  unfold activate
  rw [if_neg (by simp [h])]

@[simp] theorem activate_total_seconds (s : TimerState) :
    (activate s).total_seconds = s.total_seconds := by
  rcases h : s.running with _ | _
  · rw [activate_of_not_running s h]
    split <;> rfl
  · rw [activate_of_running s h]

@[simp] theorem activate_remaining (s : TimerState) :
    (activate s).remaining = s.remaining := by
  rcases h : s.running with _ | _
  · rw [activate_of_not_running s h]
    split <;> rfl
  · rw [activate_of_running s h]

@[simp] theorem activate_inputValue (s : TimerState) :
    (activate s).inputValue = s.inputValue := by
  rcases h : s.running with _ | _
  · rw [activate_of_not_running s h]
    split <;> rfl
  · rw [activate_of_running s h]

theorem activate_syncCount (s : TimerState) :
    (activate s).syncCount = if s.running then s.syncCount else s.syncCount + 1 := by
  rcases h : s.running with _ | _
  · rw [activate_of_not_running s h]
    simp only [Bool.false_eq_true, if_false]
    split <;> rfl
  · rw [activate_of_running s h]
    simp

theorem activate_running_of_not_running (s : TimerState) (h : s.running = false) :
    (activate s).running = true := by
  rw [activate_of_not_running s h]
  split <;> rfl

theorem activate_taskAlive_of_not_running (s : TimerState) (h : s.running = false) :
    (activate s).taskAlive = true := by
  rw [activate_of_not_running s h]
  rcases ht : s.taskAlive with _ | _
  · rw [if_neg (by simp)]
    rfl
  · rw [if_pos rfl]
    rfl

theorem activate_spawnCount_of_not_running (s : TimerState) (h : s.running = false) :
    (activate s).spawnCount = if s.taskAlive then s.spawnCount else s.spawnCount + 1 := by
  rw [activate_of_not_running s h]
  rcases ht : s.taskAlive with _ | _
  · rw [if_neg (by simp), if_neg (by simp)]
    rfl
  · rw [if_pos rfl, if_pos rfl]
    rfl

/-- The three shapes `start` takes, by the result of parsing the input. -/
theorem start_cases (s : TimerState) :
    (∀ v : Int, pyInt s.inputValue = some v → v ≤ 0 → start s = s) ∧
    (∀ v : Int, pyInt s.inputValue = some v → 0 < v →
      (s.remaining ≤ 0 ∨ v ≠ s.total_seconds →
        start s = activate (sync_ui { s with total_seconds := v, remaining := (v : ℚ) })) ∧
      (0 < s.remaining → v = s.total_seconds → start s = activate s)) ∧
    (pyInt s.inputValue = none → start s = activate s) := by
  refine ⟨fun v hv hle => ?_, fun v hv hpos => ⟨fun hcfg => ?_, fun hrem htot => ?_⟩,
    fun hnone => ?_⟩
  · simp only [start, hv]
    rw [if_pos hle]
  · simp only [start, hv]
    rw [if_neg (by omega), if_pos hcfg]
  · simp only [start, hv]
    rw [if_neg (by omega), if_neg (by push_neg; exact ⟨by linarith, htot⟩)]
  · simp only [start, hnone]

/-! ### The claims -/

/-- C6: for every timer and every prior state, `reset` sets
`remainingSeconds = totalSeconds` and `running = false`, and refreshes
the UI. -/
theorem reset_restores_full_duration (s : TimerState) :
    (reset s).remaining = ((reset s).total_seconds : ℚ) ∧
    (reset s).remaining = (s.total_seconds : ℚ) ∧
    (reset s).running = false ∧
    (reset s).syncCount = s.syncCount + 1 :=
  ⟨rfl, rfl, rfl, rfl⟩

/-- C10: `reset` only touches `running` and `remainingSeconds` (and the
derived UI state): the name, the default duration, the configured
`total_seconds`, the duration field's text, and the background-task
bookkeeping are all unchanged, and `remaining` is restored to the
currently configured `total_seconds` (not to the input field's value and
not to the default). -/
theorem reset_frame (s : TimerState) :
    (reset s).name = s.name ∧
    (reset s).default_seconds = s.default_seconds ∧
    (reset s).total_seconds = s.total_seconds ∧
    (reset s).inputValue = s.inputValue ∧
    (reset s).taskAlive = s.taskAlive ∧
    (reset s).spawnCount = s.spawnCount ∧
    (reset s).remaining = (s.total_seconds : ℚ) :=
  ⟨rfl, rfl, rfl, rfl, rfl, rfl, rfl⟩

/-- C9: the progress fraction is exactly 0 whenever `total_seconds ≤ 0`
(no division by zero occurs); for positive `total_seconds` it equals
`(total - remaining) / total` clamped into `[0, 1]`, and it always lies
in `[0, 1]`. -/
theorem progress_fraction_guard (s : TimerState) :
    (s.total_seconds ≤ 0 → progress_fraction s = 0) ∧
    (0 < s.total_seconds →
      progress_fraction s =
        max 0 (min 1 (((s.total_seconds : ℚ) - s.remaining) / (s.total_seconds : ℚ)))) ∧
    0 ≤ progress_fraction s ∧ progress_fraction s ≤ 1 := by
  unfold progress_fraction progress_frac
  by_cases h : s.total_seconds ≤ 0
  · rw [if_pos h]
    exact ⟨fun _ => rfl, fun hc => absurd hc (by omega), le_refl 0, by norm_num⟩
  · rw [if_neg h, pymin_eq_min, pymax_eq_max]
    refine ⟨fun hc => absurd hc h, fun _ => rfl, le_max_left 0 _, ?_⟩
    exact max_le (by norm_num) (min_le_left 1 _)

/-- Witness for C9 at two concrete timers: a zero-total timer reports
fraction 0, and a 60-second timer with 15 seconds left reports the
clamped formula. -/
theorem progress_fraction_guard_witness :
    progress_fraction zeroTotalTimer = 0 ∧
    progress_fraction quarterLeftTimer =
      max 0 (min 1 (((quarterLeftTimer.total_seconds : ℚ) - quarterLeftTimer.remaining) /
        (quarterLeftTimer.total_seconds : ℚ))) :=
  ⟨(progress_fraction_guard zeroTotalTimer).1 (by decide),
   (progress_fraction_guard quarterLeftTimer).2.1 (by decide)⟩

/-- C3: when `start` parses a positive value `v`, it resets both
`total_seconds` and `remaining` to `v` exactly when the timer was
finished (`remaining ≤ 0`) or `v` differs from the configured total;
with time left and an unchanged value both fields are untouched. -/
theorem start_reconfiguration_rule (s : TimerState) (v : Int)
    (hv : pyInt s.inputValue = some v) (hpos : 0 < v) :
    (s.remaining ≤ 0 ∨ v ≠ s.total_seconds →
      (start s).total_seconds = v ∧ (start s).remaining = (v : ℚ)) ∧
    (0 < s.remaining → v = s.total_seconds →
      (start s).total_seconds = s.total_seconds ∧ (start s).remaining = s.remaining) := by
  constructor
  · intro hcfg
    rw [((start_cases s).2.1 v hv hpos).1 hcfg]
    simp
  · intro hrem htot
    rw [((start_cases s).2.1 v hv hpos).2 hrem htot]
    simp

/-- Witness for C3 at the spec's three examples: a running 60/40 timer
keeps 40 on Start with "60", is reset to 90/90 on Start with "90", and a
finished 60/0 timer is reset to 45/45 on Start with "45". -/
theorem start_reconfiguration_rule_witness :
    (start run60Timer).total_seconds = run60Timer.total_seconds ∧
    (start run60Timer).remaining = run60Timer.remaining ∧
    (start run90Timer).total_seconds = 90 ∧
    (start run90Timer).remaining = ((90 : Int) : ℚ) ∧
    (start finished45Timer).total_seconds = 45 ∧
    (start finished45Timer).remaining = ((45 : Int) : ℚ) := by
  have h60 := (start_reconfiguration_rule run60Timer 60 (by decide) (by decide)).2
    (by decide) (by decide)
  have h90 := (start_reconfiguration_rule run90Timer 90 (by decide) (by decide)).1
    (Or.inr (by decide))
  have h45 := (start_reconfiguration_rule finished45Timer 45 (by decide) (by decide)).1
    (Or.inl (by decide))
  exact ⟨h60.1, h60.2, h90.1, h90.2, h45.1, h45.2⟩

/-- C8 counterexample: a running timer whose `remaining` has reached 0
(with its input field still holding its own `total_seconds`, a positive
unchanged value) IS reconfigured by `start`: `remaining` jumps back to the
full duration, so `start` is not a no-op on every running timer. -/
theorem start_running_at_zero_not_idempotent :
    runningAtZeroTimer.running = true ∧
    pyInt runningAtZeroTimer.inputValue = some runningAtZeroTimer.total_seconds ∧
    0 < runningAtZeroTimer.total_seconds ∧
    (start runningAtZeroTimer).remaining ≠ runningAtZeroTimer.remaining := by
  refine ⟨rfl, by decide, by decide, ?_⟩
  show (start runningAtZeroTimer).remaining ≠ 0
  have h := (start_reconfiguration_rule runningAtZeroTimer 60 (by decide) (by decide)).1
    (Or.inl (by decide))
  rw [h.2]
  decide

/-- C8 (amended): for every running timer that still has time left
(`0 < remaining`), pressing Start with the duration field parsing to the
timer's own `total_seconds` changes nothing at all: the whole state —
including the task bookkeeping, so no second background task is spawned —
is returned unchanged. -/
theorem start_idempotent_while_running (s : TimerState)
    (hrun : s.running = true) (hrem : 0 < s.remaining)
    (hin : pyInt s.inputValue = some s.total_seconds) :
    start s = s := by
  rcases le_or_lt s.total_seconds 0 with hle | hpos
  · exact (start_cases s).1 s.total_seconds hin hle
  · rw [((start_cases s).2.1 s.total_seconds hin hpos).2 hrem rfl]
    exact activate_of_running s hrun

/-- Witness for C8 (amended) at a running 60/40 timer whose input field
holds "60". -/
theorem start_idempotent_while_running_witness :
    steadyRunningTimer.running = true ∧
    0 < steadyRunningTimer.remaining ∧
    start steadyRunningTimer = steadyRunningTimer :=
  ⟨rfl, by decide,
   start_idempotent_while_running steadyRunningTimer rfl (by decide) (by decide)⟩

/-- C1 counterexample: with the duration field holding `"0"` (which does
not parse as a positive whole number), `start` on a paused timer does NOT
set `running = true`: the parsed value 0 triggers the early `return`, so
the whole state — `running` included — is unchanged. -/
theorem start_zero_input_no_activation :
    zeroInputTimer.running = false ∧
    start zeroInputTimer = zeroInputTimer :=
  ⟨rfl, rfl⟩

/-- C1 (amended): for input text that fails to parse as an integer
(e.g. "abc"), `start` leaves `total_seconds` and `remaining` unchanged
and, if the timer was not running, still activates it using the
pre-existing duration: `running` becomes true, the task handle is live
afterwards, and a background task is spawned exactly when none was alive
before the call; but for text parsing to an integer `≤ 0`
(e.g. "-5" or "0"), `start` returns immediately and the whole state —
`running` and the task bookkeeping included — is unchanged. -/
theorem start_invalid_input (s : TimerState) :
    (pyInt s.inputValue = none →
      (start s).total_seconds = s.total_seconds ∧
      (start s).remaining = s.remaining ∧
      (s.running = false →
        (start s).running = true ∧
        (start s).taskAlive = true ∧
        (s.taskAlive = false → (start s).spawnCount = s.spawnCount + 1) ∧
        (s.taskAlive = true → (start s).spawnCount = s.spawnCount))) ∧
    (∀ v : Int, pyInt s.inputValue = some v → v ≤ 0 → start s = s) := by
  constructor
  · intro hnone
    rw [(start_cases s).2.2 hnone]
    refine ⟨activate_total_seconds s, activate_remaining s, fun hr => ?_⟩
    refine ⟨activate_running_of_not_running s hr,
      activate_taskAlive_of_not_running s hr, fun ht => ?_, fun ht => ?_⟩
    · rw [activate_spawnCount_of_not_running s hr, if_neg (by simp [ht])]
    · rw [activate_spawnCount_of_not_running s hr, if_pos ht]
  · exact (start_cases s).1

/-- Witness for C1 (amended): a paused 60-second timer with input "abc"
and no live task keeps its duration, becomes running, and spawns one
background task; with input "-5" nothing at all changes. -/
theorem start_invalid_input_witness :
    (start abcPausedTimer).total_seconds = abcPausedTimer.total_seconds ∧
    (start abcPausedTimer).remaining = abcPausedTimer.remaining ∧
    (start abcPausedTimer).running = true ∧
    (start abcPausedTimer).taskAlive = true ∧
    (start abcPausedTimer).spawnCount = abcPausedTimer.spawnCount + 1 ∧
    start negInputTimer = negInputTimer := by
  have h := (start_invalid_input abcPausedTimer).1 (by decide)
  have ha := h.2.2 rfl
  exact ⟨h.1, h.2.1, ha.1, ha.2.1, ha.2.2.1 rfl,
    (start_invalid_input negInputTimer).2 (-5) (by decide) (by decide)⟩

/-- C2 counterexample: `start` on a running timer whose duration field
holds "abc" performs NO UI refresh at all (`_sync_ui` is never reached:
parsing fails and the timer is already running), contradicting "a syncUi
call happens regardless". -/
theorem start_running_invalid_no_refresh :
    (start runningAbcTimer).syncCount = runningAbcTimer.syncCount ∧
    start runningAbcTimer = runningAbcTimer :=
  ⟨rfl, rfl⟩

/-- C2 (amended): `start` requests at least one UI refresh exactly when
the duration was reconfigured, or the timer was not running and the input
did not parse to a non-positive integer (the early-`return` case); in all
other cases no refresh is requested. -/
theorem start_refresh_iff (s : TimerState) :
    (start s).syncCount ≠ s.syncCount ↔
      ((∃ v : Int, pyInt s.inputValue = some v ∧ 0 < v ∧
          (s.remaining ≤ 0 ∨ v ≠ s.total_seconds)) ∨
       (s.running = false ∧
        ¬ ∃ v : Int, pyInt s.inputValue = some v ∧ v ≤ 0)) := by
  cases hp : pyInt s.inputValue with
  | none =>
    rw [(start_cases s).2.2 hp, activate_syncCount]
    rcases hr : s.running with _ | _
    · simp [hp, hr]
    · simp [hp, hr]
  | some v =>
    rcases le_or_lt v 0 with hle | hpos
    · rw [(start_cases s).1 v hp hle]
      simp [hle, not_lt.2 hle]
    · by_cases hcfg : s.remaining ≤ 0 ∨ v ≠ s.total_seconds
      · rw [((start_cases s).2.1 v hp hpos).1 hcfg, activate_syncCount]
        refine iff_of_true ?_ (Or.inl ⟨v, rfl, hpos, hcfg⟩)
        simp only [sync_ui_running, sync_ui_syncCount]
        split_ifs <;> omega
      · push_neg at hcfg
        obtain ⟨hrem, htot⟩ := hcfg
        rw [((start_cases s).2.1 v hp hpos).2 hrem htot, activate_syncCount]
        constructor
        · intro hne
          rcases hr : s.running with _ | _
          · refine Or.inr ⟨rfl, ?_⟩
            rintro ⟨v1, hv1, hle1⟩
            rw [Option.some.injEq] at hv1
            omega
          · rw [hr] at hne
            simp at hne
        · rintro (⟨v1, hv1, hpos1, hor⟩ | ⟨hrf, h2⟩)
          · rw [Option.some.injEq] at hv1
            subst hv1
            rcases hor with h1 | h1
            · exact absurd h1 (not_le.2 hrem)
            · exact absurd htot h1
          · rw [hrf]
            simp

/-- C5: on the wake at which a running timer's `remaining`, after
subtracting the elapsed time, drops to `≤ 0`, the loop clamps `remaining`
to exactly 0, sets `running = false`, requests one UI refresh, and breaks
out; the rest of the wake schedule is never consumed (a fresh `start` is
needed for a new loop — the broken task's handle now reports done). -/
theorem run_completion (ls : LoopState) (now : ℚ) (rest : List ℚ)
    (hrun : ls.timer.running = true)
    (hdone : ls.timer.remaining - elapsedAt ls now ≤ 0) :
    (runStep ls now).1.timer.remaining = 0 ∧
    (runStep ls now).1.timer.running = false ∧
    (runStep ls now).1.timer.taskAlive = false ∧
    (runStep ls now).1.timer.syncCount = ls.timer.syncCount + 1 ∧
    (runStep ls now).2 = LoopSignal.brk ∧
    runList ls (now :: rest) = (runStep ls now).1 := by
  have hstep : runStep ls now =
      ({ timer := sync_ui { ls.timer with remaining := 0, running := false, taskAlive := false }
         lastTick := some now }, LoopSignal.brk) := by
    simp only [runStep]
    rw [if_neg (by simp [hrun]), if_pos hdone]
  refine ⟨?_, ?_, ?_, ?_, ?_, ?_⟩ <;> rw [hstep] <;> try rfl
  show runList ls (now :: rest) = _
  simp only [runList]
  rw [hstep]

/-- Witness for C5: a loop with 1 second left and baseline tick 0, woken
at time 2 (elapsed 2), finishes: remaining is clamped to 0, running is
cleared, the wake breaks, and a further scheduled wake at time 3 is never
executed. -/
theorem run_completion_witness :
    (runStep doneLoop 2).1.timer.remaining = 0 ∧
    (runStep doneLoop 2).1.timer.running = false ∧
    (runStep doneLoop 2).2 = LoopSignal.brk ∧
    runList doneLoop [2, 3] = (runStep doneLoop 2).1 := by
  have h := run_completion doneLoop 2 [3] rfl
    (by norm_num [doneLoop, elapsedAt, init])
  exact ⟨h.1, h.2.1, h.2.2.2.2.1, h.2.2.2.2.2⟩

/-- C4: `0 ≤ remaining ≤ total_seconds` holds at creation (for a positive
default duration) and is preserved by `start`, `pause`, `reset`, and every
wake of the background loop driven by a monotone clock (the new reading is
at least the stored baseline). -/
theorem remaining_bounds_invariant :
    (∀ (nm : String) (d : Int), 0 < d → Inv (init nm d)) ∧
    (∀ s : TimerState, Inv s → Inv (start s)) ∧
    (∀ s : TimerState, Inv s → Inv (pause s)) ∧
    (∀ s : TimerState, Inv s → Inv (reset s)) ∧
    (∀ (ls : LoopState) (now : ℚ), Inv ls.timer →
      (∀ t : ℚ, ls.lastTick = some t → t ≤ now) →
      Inv (runStep ls now).1.timer) := by
  have hInvSync : ∀ s : TimerState, Inv (sync_ui s) ↔ Inv s := by
    intro s
    unfold Inv
    rw [sync_ui_remaining, sync_ui_total_seconds]
  have hInvAct : ∀ s : TimerState, Inv (activate s) ↔ Inv s := by
    intro s
    unfold Inv
    rw [activate_remaining, activate_total_seconds]
  refine ⟨?_, ?_, ?_, ?_, ?_⟩
  · intro nm d hd
    have hc : (0 : ℚ) ≤ ((d : Int) : ℚ) := by exact_mod_cast hd.le
    exact ⟨hc, le_refl _⟩
  · intro s hs
    cases hp : pyInt s.inputValue with
    | none =>
      rw [(start_cases s).2.2 hp, hInvAct]
      exact hs
    | some v =>
      rcases le_or_lt v 0 with hle | hpos
      · rw [(start_cases s).1 v hp hle]
        exact hs
      · by_cases hcfg : s.remaining ≤ 0 ∨ v ≠ s.total_seconds
        · rw [((start_cases s).2.1 v hp hpos).1 hcfg, hInvAct, hInvSync]
          have hc : (0 : ℚ) ≤ ((v : Int) : ℚ) := by exact_mod_cast hpos.le
          exact ⟨hc, le_refl _⟩
        · push_neg at hcfg
          rw [((start_cases s).2.1 v hp hpos).2 hcfg.1 hcfg.2, hInvAct]
          exact hs
  · intro s hs
    unfold pause
    split_ifs
    · rw [hInvSync]
      exact hs
    · exact hs
  · intro s hs
    unfold reset
    rw [hInvSync]
    exact ⟨le_trans hs.1 hs.2, le_refl _⟩
  · intro ls now hs hmono
    have helapsed : 0 ≤ elapsedAt ls now := by
      unfold elapsedAt
      cases hlt : ls.lastTick with
      | none => simp
      | some t => simpa using hmono t hlt
    simp only [runStep]
    split_ifs with h1 h2
    · exact hs
    · rw [hInvSync]
      exact ⟨le_refl 0, le_trans hs.1 hs.2⟩
    · rw [hInvSync]
      constructor
      · simpa using le_of_not_le h2
      · have := hs.2
        simp only
        linarith

/-- Witness for C4: the invariant holds for a fresh 60-second timer, is
kept by `start` and `reset` there, and is kept by a monotone loop wake on
a running 60/40 loop. -/
theorem remaining_bounds_invariant_witness :
    Inv (init "Timer 1" 60) ∧
    Inv (start (init "Timer 1" 60)) ∧
    Inv (reset (init "Timer 1" 60)) ∧
    Inv (runStep midLoop 1).1.timer := by
  have h0 : Inv (init "Timer 1" 60) := remaining_bounds_invariant.1 "Timer 1" 60 (by decide)
  refine ⟨h0, remaining_bounds_invariant.2.1 _ h0,
    remaining_bounds_invariant.2.2.2.1 _ h0,
    remaining_bounds_invariant.2.2.2.2 midLoop 1 (by decide) ?_⟩
  intro t ht
  have : some (0 : ℚ) = some t := ht
  rw [← Option.some.injEq (0 : ℚ) t |>.mp this]
  norm_num

/-- Fuel-indexed lower bound: one wake of `Nat.toDigitsCore` with positive
fuel always prepends at least one character. -/
theorem toDigitsCore_length_lb (b : Nat) :
    ∀ (f n : Nat) (l : List Char), 1 ≤ f →
      l.length + 1 ≤ (Nat.toDigitsCore b f n l).length := by
  intro f
  induction f with
  | zero => intro n l h; omega
  | succ fuel ih =>
    intro n l _
    simp only [Nat.toDigitsCore]
    split
    · simp
    · cases fuel with
      | zero => simp [Nat.toDigitsCore]
      | succ f2 =>
        have := ih (n / b) (Nat.digitChar (n % b) :: l) (Nat.succ_le_succ (Nat.zero_le f2))
        simp at this ⊢
        omega

/-- The decimal representation of a number `≥ 10` has at least two
characters. -/
theorem repr_length_ge_two (k : Nat) (h : 10 ≤ k) : 2 ≤ (Nat.repr k).length := by
  have hk : k / 10 ≠ 0 := by omega
  cases k with
  | zero => omega
  | succ n =>
    have hn : 9 ≤ n := by omega
    show 2 ≤ (Nat.toDigits 10 (n + 1)).asString.length
    rw [List.length_asString]
    simp only [Nat.toDigits, Nat.toDigitsCore, hk, if_false]
    split
    · simp
    · have hf : 1 ≤ n := by omega
      have := toDigitsCore_length_lb 10 n ((n + 1) / 10 / 10)
        [Nat.digitChar ((n + 1) / 10 % 10), Nat.digitChar ((n + 1) % 10)] hf
      simp at this ⊢
      omega

/-- On natural numbers, the embedded `f"{n:02d}"` padding agrees with the
spec-side arithmetic description of two-digit zero-padding. -/
theorem pad2_ofNat (k : Nat) : pad2 ((k : Nat) : Int) = specPad2 k := by
  show (if (toString ((k : Nat) : Int)).length < 2
        then "0" ++ toString ((k : Nat) : Int)
        else toString ((k : Nat) : Int)) = specPad2 k
  rw [show toString ((k : Nat) : Int) = Nat.repr k from rfl]
  unfold specPad2
  by_cases h : k < 10
  · have hlen : (Nat.repr k).length < 2 := by
      have := Nat.repr_length k 1 (by norm_num) (by simpa using h)
      omega
    rw [if_pos hlen, if_pos h]
    rfl
  · have hlen : ¬ (Nat.repr k).length < 2 := by
      have := repr_length_ge_two k (by omega)
      omega
    rw [if_neg hlen, if_neg h]
    rfl

/-- C7: for every non-negative second count the rendered time text is
`MM:SS` with unbounded minutes `floor(s / 60)` and seconds `s mod 60`,
each zero-padded to two digits; negative inputs are clamped to 0 first;
and the spec's three examples evaluate as stated. -/
theorem format_time_spec :
    (∀ n : Nat, format_time ((n : Nat) : Int) = specFormat n) ∧
    (∀ s : Int, s < 0 → format_time s = format_time 0) ∧
    format_time 125 = "02:05" ∧
    format_time 0 = "00:00" ∧
    format_time 3661 = "61:01" := by
  refine ⟨?_, ?_, by decide, by decide, by decide⟩
  · intro n
    simp only [format_time, specFormat]
    rw [if_neg (not_lt.2 (by exact_mod_cast Nat.zero_le n))]
    rw [show ((n : Nat) : Int) / 60 = (((n / 60 : Nat) : Nat) : Int) by norm_cast,
        show ((n : Nat) : Int) % 60 = (((n % 60 : Nat) : Nat) : Int) by norm_cast,
        pad2_ofNat, pad2_ofNat]
  · intro s hs
    simp only [format_time]
    rw [if_pos hs]
    rfl

/-- Witness for C7: the format agrees with the spec form at 125 seconds,
and a negative count (-7) formats like 0. -/
theorem format_time_spec_witness :
    format_time ((125 : Nat) : Int) = specFormat 125 ∧
    format_time (-7) = format_time 0 :=
  ⟨format_time_spec.1 125, format_time_spec.2.1 (-7) (by decide)⟩

end Countdown
